import Mathlib

/-!
Shallow embedding of `src/src/elements/TACSElement.h` from the repository
SeiyonArulampalam/a2d-shells (a slice of the TACS finite-element library).

The header defines the abstract base class `TACSElement`.  We embed:

* the base-class private state (`componentNum`, `fdOrder`, lines 329-332)
  together with the constructor (line 38) and the component-number
  accessors (lines 49, 56);
* the pure virtual dimension accessors `getVarsPerNode` / `getNumNodes`
  as a record of the values a concrete formulation returns, and the
  non-virtual `getNumVariables` (line 82) computed from them;
* `getMultiplierIndex` (line 92) and the inline default bodies of
  `getInitConditions` (183-190), `computeEnergies` (206-212),
  `getMatVecDataSizes` (284-288), `addMatVecProduct` (300-302) and
  `evalPointQuantity` (320-327);
* `addResidual` (pure virtual, line 228) and the default `addJacobian`
  (declared at line 256 with no body in the repository) are modelled
  from the spec, as marked in their doc comments.

`TacsScalar` is `double` in the real build; it is modelled by the exact
rationals.  C `int` is modelled by the unbounded `Int` (none of the code
relies on wrap-around).  A caller-owned array reached through a pointer
is modelled as a total function from indices to scalars; a callee that
writes only some entries returns a function that agrees with the old one
elsewhere, mirroring `memset` on a prefix.
-/

/-- TacsScalar (double in the real build) modelled by the rationals. -/
abbrev TacsScalar : Type := ℚ

/-- A caller-owned scalar array viewed through its pointer. -/
abbrev Buf : Type := Nat → TacsScalar

/-- The all-zero buffer. -/
def zeroBuf : Buf := fun _ => 0

/-- The private base-class state of a TACSElement: the mutable component
number (line 330) and the finite-difference order with in-class
initializer `int fdOrder = 2` (line 332). -/
structure TACSElement where
  componentNum : Int
  fdOrder : Int
deriving DecidableEq

/-- The constructor `TACSElement(int _componentNum = 0)` (line 38): stores
the argument in `componentNum`; the in-class initializer sets `fdOrder`
to 2. -/
def TACSElement.construct (c : Int) : TACSElement :=
  { componentNum := c, fdOrder := 2 }

/-- Construction with the default argument `_componentNum = 0`. -/
def TACSElement.constructDefault : TACSElement :=
  TACSElement.construct 0

/-- Method `setComponentNum(int comp_num)` (line 49): assigns
`componentNum = comp_num` and touches nothing else. -/
def TACSElement.setComponentNum (e : TACSElement) (comp_num : Int) : TACSElement :=
  { e with componentNum := comp_num }

/-- Method `getComponentNum()` (line 56): returns `componentNum`. -/
def TACSElement.getComponentNum (e : TACSElement) : Int :=
  e.componentNum

/-- A concrete element formulation is characterized, for the dimension
claims, by the values its overrides of the pure virtual accessors
`getVarsPerNode()` (line 70) and `getNumNodes()` (line 77) return. -/
structure Formulation where
  numNodes : Int
  varsPerNode : Int
deriving DecidableEq

/-- Virtual accessor `getNumNodes()` of a concrete formulation. -/
def Formulation.getNumNodes (F : Formulation) : Int :=
  F.numNodes

/-- Virtual accessor `getVarsPerNode()` of a concrete formulation. -/
def Formulation.getVarsPerNode (F : Formulation) : Int :=
  F.varsPerNode

/-- Non-virtual method `getNumVariables()` (line 82):
`return getNumNodes() * getVarsPerNode();`. -/
def Formulation.getNumVariables (F : Formulation) : Int :=
  F.getNumNodes * F.getVarsPerNode

/-- The number of variables as an array length (the `int` is converted to
the unsigned `size_t` by the `memset` calls; the claims only exercise
nonnegative dimensions). -/
def Formulation.numVars (F : Formulation) : Nat :=
  F.getNumVariables.toNat

/-- Default body of the virtual `getMultiplierIndex()` (line 92):
`return -1;` -- a negative index meaning no multiplier is defined. -/
def TACSElement.getMultiplierIndex : Int :=
  -1

/-- Result record of `getInitConditions`: the element object the method
was invoked on, the const input array and the three output arrays, as
left after the call. -/
structure InitCondResult where
  elem : TACSElement
  Xpts : Buf
  vars : Buf
  dvars : Buf
  ddvars : Buf

/-- Default body of `getInitConditions` (lines 183-190):
`num_vars = getNumNodes() * getVarsPerNode()` and then `memset` of
`vars`, `dvars`, `ddvars` to zero over `num_vars` scalars each.  The
element state and the const array `Xpts` are not touched. -/
def TACSElement.getInitConditions (F : Formulation) (e : TACSElement)
    (elemIndex : Int) (Xpts vars dvars ddvars : Buf) : InitCondResult :=
  { elem := e
    Xpts := Xpts
    vars := fun i => if i < F.numVars then 0 else vars i
    dvars := fun i => if i < F.numVars then 0 else dvars i
    ddvars := fun i => if i < F.numVars then 0 else ddvars i }

/-- Result record of `computeEnergies`: element object, const input
arrays and the two scalar outputs, as left after the call. -/
structure EnergiesResult where
  elem : TACSElement
  Xpts : Buf
  vars : Buf
  dvars : Buf
  Te : TacsScalar
  Pe : TacsScalar

/-- Default body of `computeEnergies` (lines 206-212):
`*Te = 0.0; *Pe = 0.0;` -- everything else is left untouched. -/
def TACSElement.computeEnergies (e : TACSElement) (elemIndex : Int)
    (time : TacsScalar) (Xpts vars dvars : Buf)
    (Te Pe : TacsScalar) : EnergiesResult :=
  { elem := e
    Xpts := Xpts
    vars := vars
    dvars := dvars
    Te := 0
    Pe := 0 }

/-- Default body of `getMatVecDataSizes` (lines 284-288): writes
`*_data_size = 0; *_temp_size = 0;` whatever the matrix type and element
index are.  The written pair is returned. -/
def TACSElement.getMatVecDataSizes (matType : Int) (elemIndex : Int) :
    Int × Int :=
  (0, 0)

/-- Result record of `addMatVecProduct`: element object and all arrays
of the signature, as left after the call. -/
structure MatVecResult where
  elem : TACSElement
  data : Buf
  temp : Buf
  px : Buf
  py : Buf

/-- Default body of `addMatVecProduct` (lines 300-302): the body is
empty, `{}` -- nothing is read or written. -/
def TACSElement.addMatVecProduct (e : TACSElement) (matType : Int)
    (elemIndex : Int) (data temp px py : Buf) : MatVecResult :=
  { elem := e
    data := data
    temp := temp
    px := px
    py := py }

/-- Result record of `evalPointQuantity`: element object, const input
arrays, the two outputs and the returned count, as left after the call. -/
structure PointQuantityResult where
  elem : TACSElement
  Xpts : Buf
  vars : Buf
  dvars : Buf
  ddvars : Buf
  detXd : TacsScalar
  quantity : Buf
  ret : Int

/-- Default body of `evalPointQuantity` (lines 320-327): the body is
`return 0;` -- no quantities defined by default; neither `detXd` nor
`quantity` is assigned. -/
def TACSElement.evalPointQuantity (e : TACSElement)
    (elemIndex quantityType : Int) (time : TacsScalar) (n : Int)
    (pt : Buf) (Xpts vars dvars ddvars : Buf)
    (detXd : TacsScalar) (quantity : Buf) : PointQuantityResult :=
  { elem := e
    Xpts := Xpts
    vars := vars
    dvars := dvars
    ddvars := ddvars
    detXd := detXd
    quantity := quantity
    ret := 0 }

/-- Modelled from the spec: `addResidual` is declared pure virtual at line
228 of the header, with no implementation anywhere in the repository.
The spec states that a formulation "must add into res, never overwrite":
a formulation computes a residual contribution determined by the element
index, the time and the input state, and adds it entrywise into the
first `numVariables` entries of the caller buffer `res`. -/
structure ResidualForm where
  form : Formulation
  contribution : Int → TacsScalar → Buf → Buf → Buf → Buf → Buf

/-- The virtual call `addResidual(elemIndex, time, Xpts, vars, dvars,
ddvars, res)` on a formulation obeying the spec contract: `res` gains
the contribution on its first `numVariables` entries and keeps its
previous value beyond them. -/
def ResidualForm.addResidual (R : ResidualForm) (elemIndex : Int)
    (time : TacsScalar) (Xpts vars dvars ddvars res : Buf) : Buf :=
  fun i =>
    if i < R.form.numVars then
      res i + R.contribution elemIndex time Xpts vars dvars ddvars i
    else
      res i

/-- Perturbation of one array entry: the value at index `j` is shifted by
`d`, all other entries are unchanged. -/
def perturb (v : Buf) (j : Nat) (d : TacsScalar) : Buf :=
  Function.update v j (v j + d)

/-- Modelled from the spec: one column of the finite-difference Jacobian
that the default `addJacobian` (declared at line 256 of the header, body
not in the repository) builds purely from `addResidual`.  For column `j`
the variables and their first and second time derivatives are perturbed
together at entry `j` by `alpha*h`, `beta*h` and `gamma*h`; the residual
(evaluated through `addResidual` into a zeroed scratch buffer) is then
differenced: centrally, at second order, when `fdOrder = 2`, and forward
at first order otherwise. -/
def fdJacobianColumn (R : ResidualForm) (fdOrder : Int) (elemIndex : Int)
    (time : TacsScalar) (alpha beta gamma h : TacsScalar)
    (Xpts vars dvars ddvars : Buf) (j : Nat) : Buf :=
  if fdOrder = 2 then
    fun i =>
      (R.addResidual elemIndex time Xpts (perturb vars j (alpha * h))
          (perturb dvars j (beta * h)) (perturb ddvars j (gamma * h)) zeroBuf i
        - R.addResidual elemIndex time Xpts (perturb vars j (-(alpha * h)))
            (perturb dvars j (-(beta * h))) (perturb ddvars j (-(gamma * h)))
            zeroBuf i) / (2 * h)
  else
    fun i =>
      (R.addResidual elemIndex time Xpts (perturb vars j (alpha * h))
          (perturb dvars j (beta * h)) (perturb ddvars j (gamma * h)) zeroBuf i
        - R.addResidual elemIndex time Xpts vars dvars ddvars zeroBuf i) / h

/-- Modelled from the spec: the default `addJacobian`.  It adds the
residual into `res` exactly as `addResidual` does, and adds the
finite-difference approximation of
`alpha*d(res)/d(vars) + beta*d(res)/d(dvars) + gamma*d(res)/d(ddvars)`
into the dense row-major `numVariables x numVariables` matrix `mat`,
at the difference order stored in the element field `fdOrder`.  The step
size `h` is left as a parameter (the spec does not pin its heuristic). -/
def TACSElement.addJacobianDefault (R : ResidualForm) (e : TACSElement)
    (elemIndex : Int) (time : TacsScalar) (alpha beta gamma h : TacsScalar)
    (Xpts vars dvars ddvars res mat : Buf) : Buf × Buf :=
  (R.addResidual elemIndex time Xpts vars dvars ddvars res,
   fun k =>
     if k < R.form.numVars * R.form.numVars then
       mat k + fdJacobianColumn R e.fdOrder elemIndex time alpha beta gamma h
         Xpts vars dvars ddvars (k % R.form.numVars) (k / R.form.numVars)
     else
       mat k)

/-- Dot product of the first `n` entries of a coefficient row with the
first `n` entries of an array. -/
def rowDot (nv : Nat) (r : Nat → TacsScalar) (v : Buf) : TacsScalar :=
  Finset.sum (Finset.range nv) (fun j => r j * v j)

/-- A linear formulation: its residual contribution is
`A * vars + B * dvars + C * ddvars`, with `A`, `B`, `C` constant
coefficient matrices.  Used to check that the finite-difference default
Jacobian reproduces `alpha*A + beta*B + gamma*C` exactly. -/
def linearResidualForm (nN nV : Int) (A B C : Nat → Nat → TacsScalar) :
    ResidualForm :=
  { form := { numNodes := nN, varsPerNode := nV }
    contribution := fun _ _ _ vars dvars ddvars i =>
      rowDot (nN * nV).toNat (A i) vars + rowDot (nN * nV).toNat (B i) dvars
        + rowDot (nN * nV).toNat (C i) ddvars }

/-- Updating one entry of the array shifts the dot product by the
matching coefficient times the change of that entry. -/
theorem rowDot_update (nv : Nat) (r : Nat → TacsScalar) (v : Buf) (j : Nat)
    (hj : j < nv) (x : TacsScalar) :
    rowDot nv r (Function.update v j x) = rowDot nv r v + r j * (x - v j) := by
  have hmem : j ∈ Finset.range nv := Finset.mem_range.mpr hj
  unfold rowDot
  have h1 : ∀ k ∈ Finset.range nv,
      r k * Function.update v j x k
        = Function.update (fun k => r k * v k) j (r j * x) k := by
    intro k _
    by_cases hk : k = j
    · subst hk; simp
    · simp [Function.update_noteq hk]
  rw [Finset.sum_congr rfl h1, Finset.sum_update_of_mem hmem,
    Finset.sum_eq_sum_diff_singleton_add hmem (fun k => r k * v k)]
  ring

/-- Claim C1: for every element, `getNumVariables()` returns exactly
`getNumNodes() * getVarsPerNode()`, whatever values the dimension
accessors of the formulation return. -/
theorem getNumVariables_eq_product (F : Formulation) :
    F.getNumVariables = F.getNumNodes * F.getVarsPerNode := rfl

/-- Claim C7: the default `computeEnergies` sets both output energies to
zero, regardless of the previous contents of `Te` and `Pe`. -/
theorem computeEnergies_default_zero (e : TACSElement) (elemIndex : Int)
    (time : TacsScalar) (Xpts vars dvars : Buf) (Te Pe : TacsScalar) :
    (TACSElement.computeEnergies e elemIndex time Xpts vars dvars Te Pe).Te = 0
    ∧ (TACSElement.computeEnergies e elemIndex time Xpts vars dvars Te Pe).Pe = 0 :=
  ⟨rfl, rfl⟩

/-- Claim C8: the default `getMultiplierIndex` returns the sentinel -1,
which is negative and therefore distinct from every valid (nonnegative)
multiplier node index. -/
theorem getMultiplierIndex_default_none :
    TACSElement.getMultiplierIndex = -1
    ∧ TACSElement.getMultiplierIndex < 0
    ∧ ∀ i : Int, 0 ≤ i → TACSElement.getMultiplierIndex ≠ i := by
  refine ⟨rfl, by decide, ?_⟩
  intro i hi
  simp only [TACSElement.getMultiplierIndex]
  omega

/-- Witness for claim C8 at the concrete valid index 4. -/
theorem getMultiplierIndex_default_none_witness :
    (0:Int) ≤ 4 ∧ TACSElement.getMultiplierIndex ≠ 4 :=
  ⟨by decide, getMultiplierIndex_default_none.2.2 4 (by decide)⟩

/-- Claim C10: after `setComponentNum(c)`, `getComponentNum()` returns
`c`; `setComponentNum` leaves the only other element field, `fdOrder`,
unchanged; and an element constructed with the default argument has
`componentNum` equal to 0. -/
theorem setComponentNum_getComponentNum (e : TACSElement) (c : Int) :
    (e.setComponentNum c).getComponentNum = c
    ∧ (e.setComponentNum c).fdOrder = e.fdOrder
    ∧ TACSElement.constructDefault.componentNum = 0 :=
  ⟨rfl, rfl, rfl⟩

/-- Claim C5: the default matrix-free protocol is unsupported: the
default `getMatVecDataSizes` returns data size 0 and temp size 0 for
every matrix type and element index, and the default `addMatVecProduct`
leaves the output vector `py` (and everything else) unchanged for every
input vector `px`. -/
theorem matVec_default_unsupported :
    (∀ matType elemIndex : Int,
      TACSElement.getMatVecDataSizes matType elemIndex = (0, 0))
    ∧ (∀ (e : TACSElement) (matType elemIndex : Int) (data temp px py : Buf),
      (TACSElement.addMatVecProduct e matType elemIndex data temp px py).py = py) :=
  ⟨fun _ _ => rfl, fun _ _ _ _ _ _ _ => rfl⟩

/-- Claim C2: for every formulation obeying the spec contract, every
state and every residual buffer, `addResidual` adds its contribution
into `res` rather than overwriting it; in particular calling it twice in
succession into the same buffer, starting from a zeroed buffer and
without zeroing between the calls, yields exactly double the single-call
result. -/
theorem addResidual_accumulates (R : ResidualForm) (elemIndex : Int)
    (time : TacsScalar) (Xpts vars dvars ddvars : Buf) :
    (∀ (res : Buf) (i : Nat),
      R.addResidual elemIndex time Xpts vars dvars ddvars res i
        = res i + (if i < R.form.numVars then
            R.contribution elemIndex time Xpts vars dvars ddvars i else 0))
    ∧ R.addResidual elemIndex time Xpts vars dvars ddvars
        (R.addResidual elemIndex time Xpts vars dvars ddvars zeroBuf)
      = fun i => 2 * R.addResidual elemIndex time Xpts vars dvars ddvars zeroBuf i := by
  constructor
  · intro res i
    by_cases h : i < R.form.numVars <;> simp [ResidualForm.addResidual, h]
  · funext i
    by_cases h : i < R.form.numVars
    · simp [ResidualForm.addResidual, zeroBuf, h]
      ring
    · simp [ResidualForm.addResidual, zeroBuf, h]

/-- Claim C6: the default `getInitConditions` zeroes every entry of
`vars`, `dvars` and `ddvars` over exactly `numNodes * varsPerNode`
entries of each array, and leaves the entries beyond that count
untouched. -/
theorem getInitConditions_default_zero (F : Formulation) (e : TACSElement)
    (elemIndex : Int) (Xpts vars dvars ddvars : Buf) (i : Nat) :
    (i < F.numVars →
      (TACSElement.getInitConditions F e elemIndex Xpts vars dvars ddvars).vars i = 0
      ∧ (TACSElement.getInitConditions F e elemIndex Xpts vars dvars ddvars).dvars i = 0
      ∧ (TACSElement.getInitConditions F e elemIndex Xpts vars dvars ddvars).ddvars i = 0)
    ∧ (F.numVars ≤ i →
      (TACSElement.getInitConditions F e elemIndex Xpts vars dvars ddvars).vars i = vars i
      ∧ (TACSElement.getInitConditions F e elemIndex Xpts vars dvars ddvars).dvars i = dvars i
      ∧ (TACSElement.getInitConditions F e elemIndex Xpts vars dvars ddvars).ddvars i = ddvars i)
    ∧ F.numVars = (F.getNumNodes * F.getVarsPerNode).toNat := by
  refine ⟨?_, ?_, rfl⟩
  · intro h
    simp [TACSElement.getInitConditions, h]
  · intro h
    simp [TACSElement.getInitConditions, Nat.not_lt.mpr h]

/-- Witness for claim C6 on a formulation with 2 nodes and 3 variables
per node (6 variables): entry 2 is zeroed, entry 7 keeps its previous
value 5. -/
theorem getInitConditions_default_zero_witness :
    ((2:Nat) < Formulation.numVars ⟨2, 3⟩
      ∧ (TACSElement.getInitConditions ⟨2, 3⟩ TACSElement.constructDefault 0
          zeroBuf (fun _ => 5) (fun _ => 5) (fun _ => 5)).vars 2 = 0)
    ∧ (Formulation.numVars ⟨2, 3⟩ ≤ 7
      ∧ (TACSElement.getInitConditions ⟨2, 3⟩ TACSElement.constructDefault 0
          zeroBuf (fun _ => 5) (fun _ => 5) (fun _ => 5)).vars 7 = 5) :=
  ⟨⟨by decide,
     ((getInitConditions_default_zero ⟨2, 3⟩ TACSElement.constructDefault 0
        zeroBuf (fun _ => 5) (fun _ => 5) (fun _ => 5) 2).1 (by decide)).1⟩,
   ⟨by decide,
     ((getInitConditions_default_zero ⟨2, 3⟩ TACSElement.constructDefault 0
        zeroBuf (fun _ => 5) (fun _ => 5) (fun _ => 5) 7).2.1 (by decide)).1⟩⟩

/-- Claim C9: the default evaluation operations (`getInitConditions`,
`computeEnergies`, `addMatVecProduct`, `evalPointQuantity`) leave the
element state (`componentNum`, `fdOrder`) unchanged and never modify
the const input arrays of their signatures. -/
theorem defaults_frame (F : Formulation) (e : TACSElement)
    (elemIndex quantityType matType : Int) (time : TacsScalar) (n : Int)
    (pt : Buf) (Xpts vars dvars ddvars : Buf) (Te Pe detXd : TacsScalar)
    (quantity data temp px py : Buf) :
    ((TACSElement.getInitConditions F e elemIndex Xpts vars dvars ddvars).elem = e
      ∧ (TACSElement.getInitConditions F e elemIndex Xpts vars dvars ddvars).Xpts = Xpts)
    ∧ ((TACSElement.computeEnergies e elemIndex time Xpts vars dvars Te Pe).elem = e
      ∧ (TACSElement.computeEnergies e elemIndex time Xpts vars dvars Te Pe).Xpts = Xpts
      ∧ (TACSElement.computeEnergies e elemIndex time Xpts vars dvars Te Pe).vars = vars
      ∧ (TACSElement.computeEnergies e elemIndex time Xpts vars dvars Te Pe).dvars = dvars)
    ∧ ((TACSElement.addMatVecProduct e matType elemIndex data temp px py).elem = e
      ∧ (TACSElement.addMatVecProduct e matType elemIndex data temp px py).data = data
      ∧ (TACSElement.addMatVecProduct e matType elemIndex data temp px py).px = px)
    ∧ ((TACSElement.evalPointQuantity e elemIndex quantityType time n pt
          Xpts vars dvars ddvars detXd quantity).elem = e
      ∧ (TACSElement.evalPointQuantity e elemIndex quantityType time n pt
          Xpts vars dvars ddvars detXd quantity).Xpts = Xpts
      ∧ (TACSElement.evalPointQuantity e elemIndex quantityType time n pt
          Xpts vars dvars ddvars detXd quantity).vars = vars
      ∧ (TACSElement.evalPointQuantity e elemIndex quantityType time n pt
          Xpts vars dvars ddvars detXd quantity).dvars = dvars
      ∧ (TACSElement.evalPointQuantity e elemIndex quantityType time n pt
          Xpts vars dvars ddvars detXd quantity).ddvars = ddvars) :=
  ⟨⟨rfl, rfl⟩, ⟨rfl, rfl, rfl, rfl⟩, ⟨rfl, rfl, rfl⟩, ⟨rfl, rfl, rfl, rfl, rfl⟩⟩

/-- Counterexample to claim C4 as stated: the default `evalPointQuantity`
does not write `detXd` -- its value after the call is whatever the caller
buffer held before, here 1 in one call and 2 in the other at otherwise
identical concrete inputs, so no computed determinant is written. -/
theorem evalPointQuantity_detXd_not_written :
    ¬ ((TACSElement.evalPointQuantity TACSElement.constructDefault 0 0 0 0
          zeroBuf zeroBuf zeroBuf zeroBuf zeroBuf 1 zeroBuf).detXd
        = (TACSElement.evalPointQuantity TACSElement.constructDefault 0 0 0 0
          zeroBuf zeroBuf zeroBuf zeroBuf zeroBuf 2 zeroBuf).detXd) := by
  decide

/-- Claim C4 amended: the default `evalPointQuantity` returns 0 -- the
count of quantities written, since the base default recognizes no
quantity type -- and leaves `detXd`, the `quantity` buffer and the
element state unchanged, never silently corrupting the caller output
buffers for an unimplemented quantity type.  (Only formulations that
recognize the quantity type write `detXd`.) -/
theorem evalPointQuantity_default_count (e : TACSElement)
    (elemIndex quantityType : Int) (time : TacsScalar) (n : Int)
    (pt : Buf) (Xpts vars dvars ddvars : Buf) (detXd : TacsScalar)
    (quantity : Buf) :
    (TACSElement.evalPointQuantity e elemIndex quantityType time n pt
        Xpts vars dvars ddvars detXd quantity).ret = 0
    ∧ (TACSElement.evalPointQuantity e elemIndex quantityType time n pt
        Xpts vars dvars ddvars detXd quantity).detXd = detXd
    ∧ (TACSElement.evalPointQuantity e elemIndex quantityType time n pt
        Xpts vars dvars ddvars detXd quantity).quantity = quantity
    ∧ (TACSElement.evalPointQuantity e elemIndex quantityType time n pt
        Xpts vars dvars ddvars detXd quantity).elem = e :=
  ⟨rfl, rfl, rfl, rfl⟩

/-- Evaluating the residual of a linear formulation through `addResidual`
into a zeroed scratch buffer gives the three dot products, on every
index below the variable count. -/
theorem linear_residual_eval (nN nV : Int) (A B C : Nat → Nat → TacsScalar)
    (elemIndex : Int) (time : TacsScalar) (Xpts v dv dd : Buf) (i : Nat)
    (hi : i < (nN * nV).toNat) :
    (linearResidualForm nN nV A B C).addResidual elemIndex time Xpts v dv dd zeroBuf i
      = rowDot (nN * nV).toNat (A i) v + rowDot (nN * nV).toNat (B i) dv
        + rowDot (nN * nV).toNat (C i) dd := by
  simp [ResidualForm.addResidual, linearResidualForm, Formulation.numVars,
    Formulation.getNumVariables, Formulation.getNumNodes,
    Formulation.getVarsPerNode, zeroBuf, hi]

/-- Claim C3: a freshly constructed element has the finite-difference
order `fdOrder = 2` (second order); the default `addJacobian`, modelled
from the spec, adds the residual into `res` exactly as `addResidual`
does, and adds the finite-difference matrix -- built purely from
`addResidual` at the configured difference order -- into `mat`; and on a
linear formulation with residual `A*vars + B*dvars + C*ddvars` the
second-order column entry is exactly
`alpha*A i j + beta*B i j + gamma*C i j`, the (i,j) entry of
`alpha*d(res)/d(vars) + beta*d(res)/d(dvars) + gamma*d(res)/d(ddvars)`. -/
theorem addJacobian_default_fd (c : Int) (R : ResidualForm)
    (e : TACSElement) (elemIndex : Int)
    (time alpha beta gamma h : TacsScalar)
    (Xpts vars dvars ddvars res mat : Buf)
    (nN nV : Int) (A B C : Nat → Nat → TacsScalar) (i j : Nat)
    (hi : i < (nN * nV).toNat) (hj : j < (nN * nV).toNat)
    (hh : h ≠ 0) :
    (TACSElement.construct c).fdOrder = 2
    ∧ (TACSElement.addJacobianDefault R e elemIndex time alpha beta gamma h
        Xpts vars dvars ddvars res mat).1
      = R.addResidual elemIndex time Xpts vars dvars ddvars res
    ∧ (TACSElement.addJacobianDefault R e elemIndex time alpha beta gamma h
        Xpts vars dvars ddvars res mat).2
      = (fun k =>
          if k < R.form.numVars * R.form.numVars then
            mat k + fdJacobianColumn R e.fdOrder elemIndex time alpha beta
              gamma h Xpts vars dvars ddvars (k % R.form.numVars)
              (k / R.form.numVars)
          else
            mat k)
    ∧ fdJacobianColumn (linearResidualForm nN nV A B C) 2 elemIndex time
        alpha beta gamma h Xpts vars dvars ddvars j i
      = alpha * A i j + beta * B i j + gamma * C i j := by
  refine ⟨rfl, rfl, rfl, ?_⟩
  have hcol : fdJacobianColumn (linearResidualForm nN nV A B C) 2 elemIndex
      time alpha beta gamma h Xpts vars dvars ddvars j i
      = ((linearResidualForm nN nV A B C).addResidual elemIndex time Xpts
          (perturb vars j (alpha * h)) (perturb dvars j (beta * h))
          (perturb ddvars j (gamma * h)) zeroBuf i
        - (linearResidualForm nN nV A B C).addResidual elemIndex time Xpts
            (perturb vars j (-(alpha * h))) (perturb dvars j (-(beta * h)))
            (perturb ddvars j (-(gamma * h))) zeroBuf i) / (2 * h) := by
    simp [fdJacobianColumn]
  rw [hcol, linear_residual_eval nN nV A B C elemIndex time Xpts _ _ _ i hi,
    linear_residual_eval nN nV A B C elemIndex time Xpts _ _ _ i hi]
  simp only [perturb]
  rw [rowDot_update _ _ _ _ hj, rowDot_update _ _ _ _ hj,
    rowDot_update _ _ _ _ hj, rowDot_update _ _ _ _ hj,
    rowDot_update _ _ _ _ hj, rowDot_update _ _ _ _ hj]
  field_simp
  ring

/-- Witness for claim C3: a one-variable linear formulation with all
coefficients 1, step 1 and unit alpha, beta, gamma; the difference
column entry is 1*1 + 1*1 + 1*1. -/
theorem addJacobian_default_fd_witness :
    ((0:Nat) < ((1:Int) * 1).toNat ∧ (1:TacsScalar) ≠ 0)
    ∧ fdJacobianColumn
        (linearResidualForm 1 1 (fun _ _ => 1) (fun _ _ => 1) (fun _ _ => 1))
        2 0 0 1 1 1 1 zeroBuf zeroBuf zeroBuf zeroBuf 0 0
      = 1 * 1 + 1 * 1 + 1 * 1 :=
  ⟨⟨by decide, by decide⟩,
   (addJacobian_default_fd 0
      (linearResidualForm 1 1 (fun _ _ => 1) (fun _ _ => 1) (fun _ _ => 1))
      TACSElement.constructDefault 0 0 1 1 1 1
      zeroBuf zeroBuf zeroBuf zeroBuf zeroBuf zeroBuf
      1 1 (fun _ _ => 1) (fun _ _ => 1) (fun _ _ => 1) 0 0
      (by decide) (by decide) (by decide)).2.2.2⟩
